import Mathlib

/-!
Verification development for the atheme `pbkdf2v2` crypto module
(`src/modules/crypto/pbkdf2v2.c`).

The module is embedded shallowly: byte strings are `List Nat`, a credential
record is the list of its delimiter-separated fields, the trusted library
primitives (HMAC, digest, PBKDF2, base64, SASLprep, the RNG) are fields of a
`Prims` structure, and each C function becomes a Lean function of the same
name.  Numeric constants and the record format live in the missing header
`include/pbkdf2v2.h`; they are modelled from the spec where noted.
-/

/- ── Constants.  Modelled from the spec: the numeric values of the PRF
   identifiers and the bounds come from the missing header `pbkdf2v2.h`;
   the spec fixes only their roles (three digest kinds times the independent
   HMAC/SCRAM and plain/base64-salt bits, and MIN ≤ DEF ≤ MAX bounds). -/

def PBKDF2_PRF_HMAC_SHA1 : Nat := 4
def PBKDF2_PRF_HMAC_SHA2_256 : Nat := 5
def PBKDF2_PRF_HMAC_SHA2_512 : Nat := 6
def PBKDF2_PRF_HMAC_SHA1_S64 : Nat := 24
def PBKDF2_PRF_HMAC_SHA2_256_S64 : Nat := 25
def PBKDF2_PRF_HMAC_SHA2_512_S64 : Nat := 26
def PBKDF2_PRF_SCRAM_SHA1 : Nat := 44
def PBKDF2_PRF_SCRAM_SHA2_256 : Nat := 45
def PBKDF2_PRF_SCRAM_SHA2_512 : Nat := 46
def PBKDF2_PRF_SCRAM_SHA1_S64 : Nat := 64
def PBKDF2_PRF_SCRAM_SHA2_256_S64 : Nat := 65
def PBKDF2_PRF_SCRAM_SHA2_512_S64 : Nat := 66

def PBKDF2_DIGEST_DEF : Nat := PBKDF2_PRF_HMAC_SHA2_512_S64
def PBKDF2_ITERCNT_MIN : Nat := 10000
def PBKDF2_ITERCNT_MAX : Nat := 5000000
def PBKDF2_ITERCNT_DEF : Nat := 64000
def PBKDF2_SALTLEN_MIN : Nat := 8
def PBKDF2_SALTLEN_MAX : Nat := 64
def PBKDF2_SALTLEN_DEF : Nat := 16
def PASSLEN : Nat := 289
def ATHEME_SASLPREP_MAXLEN : Nat := PASSLEN + 1

/-- The three digest algorithms the module resolves (`EVP_sha1` etc.). -/
inductive DigestKind where
  | SHA1
  | SHA256
  | SHA512
deriving DecidableEq, Repr

/-- `SHA_DIGEST_LENGTH` / `SHA256_DIGEST_LENGTH` / `SHA512_DIGEST_LENGTH`. -/
def digestLen : DigestKind → Nat
  | .SHA1 => 20
  | .SHA256 => 32
  | .SHA512 => 64

/-- Modelled from the spec: the `ServerKeyStr` constant from the missing
header, the fixed ASCII literal used as the HMAC message (RFC 5802 §3). -/
def ServerKeyStr : List Nat := "Server Key".toList.map Char.toNat

/-- Modelled from the spec: the `ClientKeyStr` constant from the missing
header, the fixed ASCII literal used as the HMAC message (RFC 5802 §3). -/
def ClientKeyStr : List Nat := "Client Key".toList.map Char.toNat

/-- The information `atheme_pbkdf2v2_determine_prf` writes into the parsed
structure: digest, digest length, SCRAM flag, base64-salt flag. -/
structure PrfInfo where
  md : DigestKind
  dl : Nat
  scram : Bool
  salt64 : Bool
deriving DecidableEq, Repr

/-- `atheme_pbkdf2v2_determine_prf` (src lines 43-110): the first switch picks
the digest and sets the SCRAM flag (SCRAM cases fall through to the matching
HMAC cases), the second switch sets the base64-salt flag for the `_S64` ids;
every other id is unknown. -/
def atheme_pbkdf2v2_determine_prf (a : Nat) : Option PrfInfo :=
  let base : Option (DigestKind × Bool) :=
    if a = PBKDF2_PRF_SCRAM_SHA1 ∨ a = PBKDF2_PRF_SCRAM_SHA1_S64 then
      some (DigestKind.SHA1, true)
    else if a = PBKDF2_PRF_HMAC_SHA1 ∨ a = PBKDF2_PRF_HMAC_SHA1_S64 then
      some (DigestKind.SHA1, false)
    else if a = PBKDF2_PRF_SCRAM_SHA2_256 ∨ a = PBKDF2_PRF_SCRAM_SHA2_256_S64 then
      some (DigestKind.SHA256, true)
    else if a = PBKDF2_PRF_HMAC_SHA2_256 ∨ a = PBKDF2_PRF_HMAC_SHA2_256_S64 then
      some (DigestKind.SHA256, false)
    else if a = PBKDF2_PRF_SCRAM_SHA2_512 ∨ a = PBKDF2_PRF_SCRAM_SHA2_512_S64 then
      some (DigestKind.SHA512, true)
    else if a = PBKDF2_PRF_HMAC_SHA2_512 ∨ a = PBKDF2_PRF_HMAC_SHA2_512_S64 then
      some (DigestKind.SHA512, false)
    else none
  match base with
  | none => none
  | some (md, scram) =>
    let salt64 : Bool :=
      a = PBKDF2_PRF_HMAC_SHA1_S64 ∨ a = PBKDF2_PRF_HMAC_SHA2_256_S64 ∨
      a = PBKDF2_PRF_HMAC_SHA2_512_S64 ∨ a = PBKDF2_PRF_SCRAM_SHA1_S64 ∨
      a = PBKDF2_PRF_SCRAM_SHA2_256_S64 ∨ a = PBKDF2_PRF_SCRAM_SHA2_512_S64
    some { md := md, dl := digestLen md, scram := scram, salt64 := salt64 }

/-- `atheme_pbkdf2v2_parameters_sane` (src lines 112-127). -/
def atheme_pbkdf2v2_parameters_sane (sl c : Nat) : Bool :=
  if sl < PBKDF2_SALTLEN_MIN ∨ sl > PBKDF2_SALTLEN_MAX then false
  else if c < PBKDF2_ITERCNT_MIN ∨ c > PBKDF2_ITERCNT_MAX then false
  else true

/-- The trusted library primitives the module calls (OpenSSL HMAC/EVP/PBKDF2,
atheme base64, libidn stringprep, arc4random).  The spec excludes their
implementations; each is a structure field, failing calls return `none`.
`arc4random_bytes` is the byte stream `arc4random_buf` produces for the one
salt-generation call being modelled. -/
structure Prims where
  base64_decode : List Nat → Option (List Nat)
  base64_encode : List Nat → Option (List Nat)
  pbkdf2_hmac : List Nat → List Nat → Nat → DigestKind → Nat → Option (List Nat)
  hmac : DigestKind → List Nat → List Nat → Option (List Nat)
  evp_digest : DigestKind → List Nat → Option (List Nat)
  stringprep_saslprep : List Nat → Option (List Nat)
  arc4random_bytes : List Nat

/-- `atheme_pbkdf2v2_scram_normalize` (src lines 279-301): fails if the input
would overflow the SASLprep buffer, otherwise delegates to stringprep. -/
def atheme_pbkdf2v2_scram_normalize (P : Prims) (input : List Nat) : Option (List Nat) :=
  if input.length ≥ ATHEME_SASLPREP_MAXLEN then none
  else P.stringprep_saslprep input

/-- `atheme_pbkdf2v2_scram_derive` (src lines 129-153): if requested,
`csk := HMAC(md, cdg[0..dl], ServerKeyStr)`; if requested,
`chk := Digest(HMAC(md, cdg[0..dl], ClientKeyStr)[0..dl])`.  Unrequested
outputs (NULL buffers in C) are returned as `[]`. -/
def atheme_pbkdf2v2_scram_derive (P : Prims) (md : DigestKind) (dl : Nat)
    (cdg : List Nat) (want_csk want_chk : Bool) : Option (List Nat × List Nat) :=
  if want_csk then
    match P.hmac md (cdg.take dl) ServerKeyStr with
    | none => none
    | some csk =>
      if want_chk then
        match P.hmac md (cdg.take dl) ClientKeyStr with
        | none => none
        | some cck =>
          match P.evp_digest md (cck.take dl) with
          | none => none
          | some chk => some (csk, chk)
      else some (csk, [])
  else
    if want_chk then
      match P.hmac md (cdg.take dl) ClientKeyStr with
      | none => none
      | some cck =>
        match P.evp_digest md (cck.take dl) with
        | none => none
        | some chk => some ([], chk)
    else some ([], [])

/- ── The on-disk record model.  Modelled from the spec: the sscanf format
   strings (`PBKDF2_F{N,S}_LOAD*` / `SAVE*`) live in the missing header; per
   the spec the record is a fixed delimiter-joined field sequence ("$z$" tag
   then '$'-separated fields), numeric fields decimal, text fields drawn from
   the base64 alphabet, shapes distinguished by field count, and a shape
   match consumes the leading fields of the record. -/

/-- A record field: the bytes between two delimiters. -/
abbrev CredField := List Nat

/-- A credential record: its fields after the "$z$" tag, in order. -/
abbrev CredRecord := List CredField

def isDigitByte (b : Nat) : Bool := 48 ≤ b ∧ b ≤ 57

/-- A byte of the base64 alphabet `A-Za-z0-9+/=` (the `%[...]` scan set). -/
def isBase64Byte (b : Nat) : Bool :=
  (65 ≤ b ∧ b ≤ 90) ∨ (97 ≤ b ∧ b ≤ 122) ∨ (48 ≤ b ∧ b ≤ 57) ∨ b = 43 ∨ b = 47 ∨ b = 61

/-- A text field accepted by a `%[...]` conversion: nonempty, base64 bytes. -/
def fieldB64 (f : CredField) : Bool := !f.isEmpty && f.all isBase64Byte

/-- A `%u` conversion: nonempty string of decimal digits, read as a number. -/
def parseDec (f : CredField) : Option Nat :=
  if !f.isEmpty && f.all isDigitByte then
    some (f.foldl (fun acc b => 10 * acc + (b - 48)) 0)
  else none

/-- `PBKDF2_FN_LOADSALT`: the salt-only shape `prf $ iter $ salt`. -/
def matchRecord3 (r : CredRecord) : Option (Nat × Nat × CredField) :=
  match r with
  | fa :: fc :: fs :: _ =>
    (parseDec fa).bind fun a =>
      (parseDec fc).bind fun c =>
        if fieldB64 fs then some (a, c, fs) else none
  | _ => none

/-- `PBKDF2_FN_LOADHASH`: the HMAC shape `prf $ iter $ salt $ digest64`. -/
def matchRecord4 (r : CredRecord) : Option (Nat × Nat × CredField × CredField) :=
  match r with
  | fa :: fc :: fs :: f4 :: _ =>
    (parseDec fa).bind fun a =>
      (parseDec fc).bind fun c =>
        if fieldB64 fs && fieldB64 f4 then some (a, c, fs, f4) else none
  | _ => none

/-- `PBKDF2_FS_LOADHASH`: the SCRAM shape `prf $ iter $ salt $ ssk64 $ shk64`. -/
def matchRecord5 (r : CredRecord) :
    Option (Nat × Nat × CredField × CredField × CredField) :=
  match r with
  | fa :: fc :: fs :: f4 :: f5 :: _ =>
    (parseDec fa).bind fun a =>
      (parseDec fc).bind fun c =>
        if fieldB64 fs && fieldB64 f4 && fieldB64 f5 then some (a, c, fs, f4, f5)
        else none
  | _ => none

/-- The decimal rendering of a `%u` field (`snprintf`). -/
def decField (n : Nat) : CredField := (Nat.toDigits 10 n).map Char.toNat

/-- Length of the serialized record `"$z" ++ "$" ++ f₁ ++ "$" ++ f₂ ++ ...`,
the value `snprintf` compares against `PASSLEN`. -/
def recordLen (r : CredRecord) : Nat := 2 + (r.map (fun f => f.length + 1)).sum

/-- `struct pbkdf2v2_parameters`, restricted to the fields the module uses.
Buffers are modelled by their written parts; the struct is zeroed before use,
so never-written buffers are `[]`. -/
structure Parsed where
  a : Nat
  c : Nat
  salt : List Nat
  sl : Nat
  md : DigestKind
  dl : Nat
  scram : Bool
  salt64 : Bool
  cdg : List Nat
  ssk : List Nat
  shk : List Nat
  sdg : List Nat
deriving DecidableEq, Repr

/-- The salt block shared by `atheme_pbkdf2v2_compute` (src lines 366-387)
and `atheme_pbkdf2v2_scram_dbextract` (src lines 202-223): base64-decode the
salt field when the PRF is a `_S64` variant, otherwise take its bytes as the
raw salt, and validate the resulting length and the round count. -/
def pbkdf2v2_salt_resolve (P : Prims) (info : PrfInfo) (salt64f : CredField)
    (c : Nat) : Option (List Nat) :=
  if info.salt64 then
    match P.base64_decode salt64f with
    | none => none
    | some s => if atheme_pbkdf2v2_parameters_sane s.length c then some s else none
  else
    if atheme_pbkdf2v2_parameters_sane salt64f.length c then some salt64f else none

/-- The stored-key decoding block of `atheme_pbkdf2v2_compute`
(src lines 397-417): decode the SCRAM key pair when the SCRAM shape matched,
decode the stored digest when verifying an HMAC-shape record, decode nothing
when generating.  Every decoded field must have exactly `dl` bytes. -/
def pbkdf2v2_keys_resolve (P : Prims) (dl : Nat) (ssk64 shk64 sdg64 : CredField)
    (matched_ssk_shk verifying : Bool) : Option (List Nat × List Nat × List Nat) :=
  if matched_ssk_shk then
    match P.base64_decode ssk64 with
    | none => none
    | some ssk =>
      if ssk.length = dl then
        match P.base64_decode shk64 with
        | none => none
        | some shk => if shk.length = dl then some (ssk, shk, []) else none
      else none
  else if verifying then
    match P.base64_decode sdg64 with
    | none => none
    | some sdg => if sdg.length = dl then some ([], [], sdg) else none
  else some ([], [], [])

/-- The body of `atheme_pbkdf2v2_compute` after the `parsed:` label
(src lines 354-427): resolve the PRF, normalize the password in SCRAM mode,
decode and validate the salt, reject empty passwords, decode the stored
SCRAM keys or stored digest, then run PBKDF2. -/
def atheme_pbkdf2v2_compute_tail (P : Prims) (password0 : List Nat) (a c : Nat)
    (salt64f ssk64 shk64 sdg64 : CredField) (matched_ssk_shk verifying : Bool) :
    Option Parsed :=
  match atheme_pbkdf2v2_determine_prf a with
  | none => none
  | some info =>
    match (if info.scram then atheme_pbkdf2v2_scram_normalize P password0
           else some password0) with
    | none => none
    | some password =>
      match pbkdf2v2_salt_resolve P info salt64f c with
      | none => none
      | some salt =>
        if password.length = 0 then none
        else
          match pbkdf2v2_keys_resolve P info.dl ssk64 shk64 sdg64
              matched_ssk_shk verifying with
          | none => none
          | some (ssk, shk, sdg) =>
            match P.pbkdf2_hmac password salt c info.md info.dl with
            | none => none
            | some cdg =>
              some { a := a, c := c, salt := salt, sl := salt.length, md := info.md,
                     dl := info.dl, scram := info.scram, salt64 := info.salt64,
                     cdg := cdg, ssk := ssk, shk := shk, sdg := sdg }

/-- `atheme_pbkdf2v2_compute` (src lines 312-428): when verifying, try the
SCRAM shape then the HMAC shape; when generating, only the salt-only shape. -/
def atheme_pbkdf2v2_compute (P : Prims) (password : List Nat) (params : CredRecord)
    (verifying : Bool) : Option Parsed :=
  if verifying then
    match matchRecord5 params with
    | some (a, c, fs, k1, k2) =>
      atheme_pbkdf2v2_compute_tail P password a c fs k1 k2 [] true true
    | none =>
      match matchRecord4 params with
      | some (a, c, fs, f4) =>
        atheme_pbkdf2v2_compute_tail P password a c fs [] [] f4 false true
      | none => none
  else
    match matchRecord3 params with
    | some (a, c, fs) =>
      atheme_pbkdf2v2_compute_tail P password a c fs [] [] [] false false
    | none => none

/-- `atheme_pbkdf2v2_salt` (src lines 430-451): base64-encode
`PBKDF2_SALTLEN_DEF` fresh random bytes and build the salt-only record from
the process-wide defaults. -/
def atheme_pbkdf2v2_salt (P : Prims) (pbkdf2v2_digest pbkdf2v2_rounds : Nat) :
    Option CredRecord :=
  match P.base64_encode (P.arc4random_bytes.take PBKDF2_SALTLEN_DEF) with
  | none => none
  | some salt64 =>
    let r : CredRecord := [decField pbkdf2v2_digest, decField pbkdf2v2_rounds, salt64]
    if recordLen r ≥ PASSLEN then none else some r

/-- `atheme_pbkdf2v2_crypt` (src lines 453-508).  Note: the salt field of the
produced record is `parsed.salt` — the decoded raw salt bytes, not their
base64 text. -/
def atheme_pbkdf2v2_crypt (P : Prims) (password : List Nat) (params : CredRecord) :
    Option CredRecord :=
  match atheme_pbkdf2v2_compute P password params false with
  | none => none
  | some parsed =>
    if parsed.scram then
      match atheme_pbkdf2v2_scram_derive P parsed.md parsed.dl parsed.cdg true true with
      | none => none
      | some (csk, chk) =>
        match P.base64_encode (csk.take parsed.dl) with
        | none => none
        | some csk64 =>
          match P.base64_encode (chk.take parsed.dl) with
          | none => none
          | some chk64 =>
            let r : CredRecord :=
              [decField parsed.a, decField parsed.c, parsed.salt, csk64, chk64]
            if recordLen r ≥ PASSLEN then none else some r
    else
      match P.base64_encode (parsed.cdg.take parsed.dl) with
      | none => none
      | some cdg64 =>
        let r : CredRecord := [decField parsed.a, decField parsed.c, parsed.salt, cdg64]
        if recordLen r ≥ PASSLEN then none else some r

/-- `memcmp(x, y, n) == 0`: equality of the first `n` bytes. -/
def memcmpEq (x y : List Nat) (n : Nat) : Bool := x.take n == y.take n

/-- `atheme_pbkdf2v2_verify` (src lines 510-543): for SCRAM records derive
only `csk` and compare it against the stored `ssk`; for HMAC records compare
the stored digest against the computed digest. -/
def atheme_pbkdf2v2_verify (P : Prims) (password : List Nat) (params : CredRecord) :
    Bool :=
  match atheme_pbkdf2v2_compute P password params true with
  | none => false
  | some parsed =>
    if parsed.scram then
      match atheme_pbkdf2v2_scram_derive P parsed.md parsed.dl parsed.cdg true false with
      | none => false
      | some (csk, _) => memcmpEq parsed.ssk csk parsed.dl
    else
      memcmpEq parsed.sdg parsed.cdg parsed.dl

/-- `atheme_pbkdf2v2_recrypt` (src lines 545-574): parse only the salt-only
shape of the leading fields; on parse failure return false, otherwise return
true iff the PRF id, the round count, or the salt field length differs from
the process-wide defaults. -/
def atheme_pbkdf2v2_recrypt (pbkdf2v2_digest pbkdf2v2_rounds : Nat)
    (params : CredRecord) : Bool :=
  match matchRecord3 params with
  | none => false
  | some (prf, iter, salt) =>
    if prf ≠ pbkdf2v2_digest then true
    else if iter ≠ pbkdf2v2_rounds then true
    else if salt.length ≠ PBKDF2_SALTLEN_DEF then true
    else false

/-- `atheme_pbkdf2v2_scram_dbextract` (src lines 171-277): match the SCRAM
then the HMAC shape, resolve the PRF, decode and validate the salt,
canonicalize the PRF id to the plain SCRAM id of its digest family
(SHA-512 families are unsupported), then either decode the stored SCRAM key
pair or decode the stored digest into `cdg` and derive the key pair from it. -/
def atheme_pbkdf2v2_scram_dbextract (P : Prims) (params : CredRecord) :
    Option Parsed :=
  let shape : Option (Nat × Nat × CredField × CredField × CredField × CredField) :=
    match matchRecord5 params with
    | some (a, c, fs, k1, k2) => some (a, c, fs, k1, k2, [])
    | none =>
      match matchRecord4 params with
      | some (a, c, fs, f4) => some (a, c, fs, [], [], f4)
      | none => none
  match shape with
  | none => none
  | some (a, c, fs, ssk64, shk64, sdg64) =>
    match atheme_pbkdf2v2_determine_prf a with
    | none => none
    | some info =>
      match pbkdf2v2_salt_resolve P info fs c with
      | none => none
      | some salt =>
        let canonStep : Option Nat :=
          if a = PBKDF2_PRF_HMAC_SHA1 ∨ a = PBKDF2_PRF_HMAC_SHA1_S64 ∨
             a = PBKDF2_PRF_SCRAM_SHA1 ∨ a = PBKDF2_PRF_SCRAM_SHA1_S64 then
            some PBKDF2_PRF_SCRAM_SHA1
          else if a = PBKDF2_PRF_HMAC_SHA2_256 ∨ a = PBKDF2_PRF_HMAC_SHA2_256_S64 ∨
                  a = PBKDF2_PRF_SCRAM_SHA2_256 ∨ a = PBKDF2_PRF_SCRAM_SHA2_256_S64 then
            some PBKDF2_PRF_SCRAM_SHA2_256
          else none
        match canonStep with
        | none => none
        | some a2 =>
          if info.scram then
            match P.base64_decode ssk64 with
            | none => none
            | some ssk =>
              if ssk.length = info.dl then
                match P.base64_decode shk64 with
                | none => none
                | some shk =>
                  if shk.length = info.dl then
                    some { a := a2, c := c, salt := salt, sl := salt.length,
                           md := info.md, dl := info.dl, scram := info.scram,
                           salt64 := info.salt64, cdg := [], ssk := ssk,
                           shk := shk, sdg := [] }
                  else none
              else none
          else
            match P.base64_decode sdg64 with
            | none => none
            | some cdg =>
              if cdg.length = info.dl then
                match atheme_pbkdf2v2_scram_derive P info.md info.dl cdg true true with
                | none => none
                | some (ssk, shk) =>
                  some { a := a2, c := c, salt := salt, sl := salt.length,
                         md := info.md, dl := info.dl, scram := info.scram,
                         salt64 := info.salt64, cdg := cdg, ssk := ssk,
                         shk := shk, sdg := [] }
              else none

/-- Case-insensitive string equality (`strcasecmp == 0`). -/
def strCaseEq (x y : String) : Bool := x.toLower == y.toLower

/-- `c_ci_pbkdf2v2_digest` (src lines 576-608): the configuration handler for
the default PRF.  `vardata = none` and unknown names leave/reset the value;
only the five listed names are installable, all of them `_S64` identifiers,
and `SCRAM-SHA512` is commented out in the source. -/
def c_ci_pbkdf2v2_digest (vardata : Option String) (pbkdf2v2_digest : Nat) : Nat :=
  match vardata with
  | none => pbkdf2v2_digest
  | some s =>
    if strCaseEq s "SHA1" then PBKDF2_PRF_HMAC_SHA1_S64
    else if strCaseEq s "SHA256" then PBKDF2_PRF_HMAC_SHA2_256_S64
    else if strCaseEq s "SHA512" then PBKDF2_PRF_HMAC_SHA2_512_S64
    else if strCaseEq s "SCRAM-SHA1" then PBKDF2_PRF_SCRAM_SHA1_S64
    else if strCaseEq s "SCRAM-SHA256" then PBKDF2_PRF_SCRAM_SHA2_256_S64
    else PBKDF2_DIGEST_DEF

/- ── Definitions following the spec's words, for the refinement claims. -/

/-- Modelled from the spec (claim C2's words): Verify decides SCRAM matches
by comparing the StoredKey derived from the computed ClientKey
(`Digest(HMAC(derived_key, ClientKeyStr))`) against the record's stored
StoredKey field `shk`; HMAC records compare the computed digest against the
decoded stored digest. -/
def pbkdf2v2_verify_per_claim (P : Prims) (password : List Nat)
    (params : CredRecord) : Bool :=
  match atheme_pbkdf2v2_compute P password params true with
  | none => false
  | some parsed =>
    if parsed.scram then
      match atheme_pbkdf2v2_scram_derive P parsed.md parsed.dl parsed.cdg false true with
      | none => false
      | some (_, chk) => memcmpEq parsed.shk chk parsed.dl
    else
      memcmpEq parsed.sdg parsed.cdg parsed.dl

/-- Modelled from the spec (claim C2 amended): Verify decides SCRAM matches
by comparing the ServerKey `HMAC(derived_key, ServerKeyStr)` computed from
the derived key against the record's stored ServerKey field `ssk`; HMAC
records compare the computed digest against the decoded stored digest. -/
def pbkdf2v2_verify_amended (P : Prims) (password : List Nat)
    (params : CredRecord) : Bool :=
  match atheme_pbkdf2v2_compute P password params true with
  | none => false
  | some parsed =>
    if parsed.scram then
      match P.hmac parsed.md (parsed.cdg.take parsed.dl) ServerKeyStr with
      | none => false
      | some csk => memcmpEq parsed.ssk csk parsed.dl
    else
      memcmpEq parsed.sdg parsed.cdg parsed.dl

/- ── Concrete primitive instances for witnesses and counterexamples.
   The base64 layer is a simple injective byte-to-two-letters code (its
   alphabet `A..P` is inside the real base64 alphabet); the hash primitives
   are small total toy functions of the right output lengths. -/

/-- Toy base64: each byte becomes two letters from `A..P` (nibble code). -/
def toyB64Encode (l : List Nat) : Option (List Nat) :=
  some (List.flatten (l.map (fun b => [65 + b / 16, 65 + b % 16])))

/-- Inverse of `toyB64Encode`; fails on odd length or out-of-alphabet bytes. -/
def toyB64Decode : List Nat → Option (List Nat)
  | [] => some []
  | hi :: lo :: rest =>
    if 65 ≤ hi ∧ hi ≤ 80 ∧ 65 ≤ lo ∧ lo ≤ 80 then
      match toyB64Decode rest with
      | some r => some (((hi - 65) * 16 + (lo - 65)) :: r)
      | none => none
    else none
  | _ => none

def toyPrims : Prims where
  base64_decode := toyB64Decode
  base64_encode := toyB64Encode
  pbkdf2_hmac := fun pw salt c _ dl =>
    some (List.replicate dl ((pw.sum + 2 * salt.sum + 3 * c) % 251))
  hmac := fun md key msg => some (List.replicate (digestLen md) ((key.sum + msg.sum) % 251))
  evp_digest := fun _ m => some (m.map (fun b => (b + 1) % 251))
  stringprep_saslprep := fun l => some l
  arc4random_bytes := List.replicate 16 42

/-- Primitives for the claim C2 counterexample: the HMAC toy distinguishes
the two fixed messages, so the derived ServerKey and StoredKey differ. -/
def c2Prims : Prims :=
  { toyPrims with
    hmac := fun _ _ msg =>
      if msg = ServerKeyStr then some (List.replicate 20 1)
      else some (List.replicate 20 2)
    evp_digest := fun _ m => some (m.map (fun b => b + 3)) }

/-- A SCRAM-SHA1-S64 record whose stored StoredKey field equals the derived
StoredKey under `c2Prims` while its stored ServerKey field does not equal the
derived ServerKey. -/
def c2Record : CredRecord :=
  [decField PBKDF2_PRF_SCRAM_SHA1_S64, decField 10000,
   (toyB64Encode (List.replicate 16 7)).getD [],
   (toyB64Encode (List.replicate 20 9)).getD [],
   (toyB64Encode (List.replicate 20 5)).getD []]

/- ── Helper lemmas about the shape matchers. -/

theorem matchRecord3_prf {fa : CredField} {rest : CredRecord} {a c : Nat}
    {fs : CredField} (h : matchRecord3 (fa :: rest) = some (a, c, fs)) :
    parseDec fa = some a := by
  match rest with
  | [] => simp [matchRecord3] at h
  | [x1] => simp [matchRecord3] at h
  | x1 :: x2 :: rest2 =>
    simp only [matchRecord3, Option.bind_eq_some] at h
    obtain ⟨a0, hp, c0, hq, hif⟩ := h
    split at hif
    · simp only [Option.some.injEq, Prod.mk.injEq] at hif
      rw [hp, hif.1]
    · simp at hif

theorem matchRecord4_prf {fa : CredField} {rest : CredRecord} {a c : Nat}
    {fs f4 : CredField} (h : matchRecord4 (fa :: rest) = some (a, c, fs, f4)) :
    parseDec fa = some a := by
  match rest with
  | [] => simp [matchRecord4] at h
  | [x1] => simp [matchRecord4] at h
  | [x1, x2] => simp [matchRecord4] at h
  | x1 :: x2 :: x3 :: rest2 =>
    simp only [matchRecord4, Option.bind_eq_some] at h
    obtain ⟨a0, hp, c0, hq, hif⟩ := h
    split at hif
    · simp only [Option.some.injEq, Prod.mk.injEq] at hif
      rw [hp, hif.1]
    · simp at hif

theorem matchRecord5_prf {fa : CredField} {rest : CredRecord} {a c : Nat}
    {fs k1 k2 : CredField}
    (h : matchRecord5 (fa :: rest) = some (a, c, fs, k1, k2)) :
    parseDec fa = some a := by
  match rest with
  | [] => simp [matchRecord5] at h
  | [x1] => simp [matchRecord5] at h
  | [x1, x2] => simp [matchRecord5] at h
  | [x1, x2, x3] => simp [matchRecord5] at h
  | x1 :: x2 :: x3 :: x4 :: rest2 =>
    simp only [matchRecord5, Option.bind_eq_some] at h
    obtain ⟨a0, hp, c0, hq, hif⟩ := h
    split at hif
    · simp only [Option.some.injEq, Prod.mk.injEq] at hif
      rw [hp, hif.1]
    · simp at hif

/-- Claim C1 (code bug): encoding with the base64-salt SHA-1 id installed as
the process-wide default — the value the configuration handler installs for
"SHA1", and the shape of every id it can install — succeeds, but verifying
the very same password against the produced credential returns false: the
generated record stores the decoded raw salt bytes (here sixteen 0x2A bytes,
outside the base64 scan set), which the verify-side parse rejects. -/
theorem c1_encode_then_verify_fails :
    ((atheme_pbkdf2v2_salt toyPrims PBKDF2_PRF_HMAC_SHA1_S64 PBKDF2_ITERCNT_DEF).bind
      (fun ps => atheme_pbkdf2v2_crypt toyPrims [112, 119] ps)).map
      (fun r => atheme_pbkdf2v2_verify toyPrims [112, 119] r) = some false := by
  decide

/-- Claim C2 (counterexample): a SCRAM record and primitives where the
StoredKey comparison the claim describes accepts but the code's Verify
rejects — the code compares the derived ServerKey against the stored `ssk`
field, not the derived StoredKey against `shk`. -/
theorem c2_counterexample :
    atheme_pbkdf2v2_verify c2Prims [112] c2Record = false ∧
    pbkdf2v2_verify_per_claim c2Prims [112] c2Record = true := by
  decide

/-- Claim C2 (amended): for every stored record in the SCRAM shape, Verify
decides the match by comparing the ServerKey computed from the derived key
(`HMAC(derived_key, "Server Key")`) against the record's stored ServerKey
field; for HMAC-shape records it compares the computed PBKDF2 digest
directly against the decoded stored digest. -/
theorem c2_verify_compares_serverkey (P : Prims) (password : List Nat)
    (params : CredRecord) :
    atheme_pbkdf2v2_verify P password params =
      pbkdf2v2_verify_amended P password params := by
  unfold atheme_pbkdf2v2_verify pbkdf2v2_verify_amended
  cases atheme_pbkdf2v2_compute P password params true with
  | none => rfl
  | some parsed =>
    cases hs : parsed.scram with
    | false => simp [hs]
    | true =>
      have hder : atheme_pbkdf2v2_scram_derive P parsed.md parsed.dl parsed.cdg true false
          = match P.hmac parsed.md (parsed.cdg.take parsed.dl) ServerKeyStr with
            | none => none
            | some csk => some (csk, []) := by
        unfold atheme_pbkdf2v2_scram_derive
        cases P.hmac parsed.md (parsed.cdg.take parsed.dl) ServerKeyStr <;> simp
      simp only [hs, eq_self_iff_true, if_true, hder]
      cases P.hmac parsed.md (parsed.cdg.take parsed.dl) ServerKeyStr <;> simp

/-- Claim C3 (counterexample): on a record whose lightweight salt-only parse
fails (here: the empty record), `atheme_pbkdf2v2_recrypt` returns false, not
the true the claim requires. -/
theorem c3_counterexample :
    atheme_pbkdf2v2_recrypt PBKDF2_DIGEST_DEF PBKDF2_ITERCNT_DEF ([] : CredRecord)
        = false ∧
    matchRecord3 ([] : CredRecord) = none := by
  decide

/-- Claim C3 (amended): AdviseRecrypt returns true exactly when the record's
first three fields parse as the salt-only shape and at least one of the PRF
id, the iteration count, and the salt field length differs from the current
process-wide defaults; it returns false both when all three match and when
the lightweight parse fails. -/
theorem c3_recrypt_decision (d i : Nat) (r : CredRecord) :
    atheme_pbkdf2v2_recrypt d i r = true ↔
      ∃ prf iter salt, matchRecord3 r = some (prf, iter, salt) ∧
        (prf ≠ d ∨ iter ≠ i ∨ salt.length ≠ PBKDF2_SALTLEN_DEF) := by
  unfold atheme_pbkdf2v2_recrypt
  cases hm : matchRecord3 r with
  | none => simp
  | some t =>
    obtain ⟨prf, iter, salt⟩ := t
    constructor
    · intro h
      refine ⟨prf, iter, salt, rfl, ?_⟩
      by_cases h1 : prf = d
      · by_cases h2 : iter = i
        · by_cases h3 : salt.length = PBKDF2_SALTLEN_DEF
          · simp [h1, h2, h3] at h
          · exact Or.inr (Or.inr h3)
        · exact Or.inr (Or.inl h2)
      · exact Or.inl h1
    · rintro ⟨prf2, iter2, salt2, hsome, hdiff⟩
      simp only [Option.some.injEq, Prod.mk.injEq] at hsome
      obtain ⟨e1, e2, e3⟩ := hsome
      subst e1
      subst e2
      subst e3
      rcases hdiff with h | h | h <;> simp [h]

/-- Claim C4 (counterexample): the PRF resolver succeeds on both
SCRAM-SHA-512 identifiers instead of failing with `UnknownPrfError`. -/
theorem c4_counterexample :
    (atheme_pbkdf2v2_determine_prf PBKDF2_PRF_SCRAM_SHA2_512).isSome = true ∧
    (atheme_pbkdf2v2_determine_prf PBKDF2_PRF_SCRAM_SHA2_512_S64).isSome = true := by
  decide

/-- Claim C4 (amended): the PRF resolver accepts both SCRAM-SHA-512
identifiers, resolving them to the SHA-512 digest with the SCRAM flag set;
SCRAM-SHA-512 is instead rejected downstream: the dbextract entry point
fails on any record whose leading PRF field carries one of these ids, and
the configuration handler can never install one of them as the process-wide
default. -/
theorem c4_scram512_resolved_not_rejected :
    atheme_pbkdf2v2_determine_prf PBKDF2_PRF_SCRAM_SHA2_512 =
      some { md := .SHA512, dl := 64, scram := true, salt64 := false } ∧
    atheme_pbkdf2v2_determine_prf PBKDF2_PRF_SCRAM_SHA2_512_S64 =
      some { md := .SHA512, dl := 64, scram := true, salt64 := true } ∧
    (∀ (P : Prims) (fa : CredField) (rest : CredRecord) (a : Nat),
      parseDec fa = some a →
      (a = PBKDF2_PRF_SCRAM_SHA2_512 ∨ a = PBKDF2_PRF_SCRAM_SHA2_512_S64) →
      atheme_pbkdf2v2_scram_dbextract P (fa :: rest) = none) ∧
    (∀ (s : Option String) (cur : Nat),
      ¬(cur = PBKDF2_PRF_SCRAM_SHA2_512 ∨ cur = PBKDF2_PRF_SCRAM_SHA2_512_S64) →
      ¬(c_ci_pbkdf2v2_digest s cur = PBKDF2_PRF_SCRAM_SHA2_512 ∨
        c_ci_pbkdf2v2_digest s cur = PBKDF2_PRF_SCRAM_SHA2_512_S64)) := by
  refine ⟨by decide, by decide, ?_, ?_⟩
  · intro P fa rest a hpa ha
    unfold atheme_pbkdf2v2_scram_dbextract
    cases h5 : matchRecord5 (fa :: rest) with
    | some t5 =>
      obtain ⟨a5, c5, fs5, k15, k25⟩ := t5
      have : parseDec fa = some a5 := matchRecord5_prf h5
      rw [hpa] at this
      have ha5 : a5 = a := by
        simpa using this.symm
      subst ha5
      simp only [h5]
      rcases ha with h | h <;> subst h <;>
        simp [atheme_pbkdf2v2_determine_prf, PBKDF2_PRF_SCRAM_SHA2_512,
          PBKDF2_PRF_SCRAM_SHA2_512_S64, PBKDF2_PRF_SCRAM_SHA1,
          PBKDF2_PRF_SCRAM_SHA1_S64, PBKDF2_PRF_SCRAM_SHA2_256,
          PBKDF2_PRF_SCRAM_SHA2_256_S64, PBKDF2_PRF_HMAC_SHA1,
          PBKDF2_PRF_HMAC_SHA1_S64, PBKDF2_PRF_HMAC_SHA2_256,
          PBKDF2_PRF_HMAC_SHA2_256_S64, PBKDF2_PRF_HMAC_SHA2_512,
          PBKDF2_PRF_HMAC_SHA2_512_S64, digestLen] <;>
        split <;> simp
    | none =>
      cases h4 : matchRecord4 (fa :: rest) with
      | some t4 =>
        obtain ⟨a4, c4, fs4, f44⟩ := t4
        have : parseDec fa = some a4 := matchRecord4_prf h4
        rw [hpa] at this
        have ha4 : a4 = a := by
          simpa using this.symm
        subst ha4
        simp only [h5, h4]
        rcases ha with h | h <;> subst h <;>
          simp [atheme_pbkdf2v2_determine_prf, PBKDF2_PRF_SCRAM_SHA2_512,
            PBKDF2_PRF_SCRAM_SHA2_512_S64, PBKDF2_PRF_SCRAM_SHA1,
            PBKDF2_PRF_SCRAM_SHA1_S64, PBKDF2_PRF_SCRAM_SHA2_256,
            PBKDF2_PRF_SCRAM_SHA2_256_S64, PBKDF2_PRF_HMAC_SHA1,
            PBKDF2_PRF_HMAC_SHA1_S64, PBKDF2_PRF_HMAC_SHA2_256,
            PBKDF2_PRF_HMAC_SHA2_256_S64, PBKDF2_PRF_HMAC_SHA2_512,
            PBKDF2_PRF_HMAC_SHA2_512_S64, digestLen] <;>
          split <;> simp
      | none => simp [h5, h4]
  · intro s cur hcur
    cases s with
    | none => simpa [c_ci_pbkdf2v2_digest] using hcur
    | some v =>
      simp only [c_ci_pbkdf2v2_digest]
      split_ifs <;> decide

/-- Witness for the amended claim C4 at concrete inputs. -/
theorem c4_scram512_witness :
    atheme_pbkdf2v2_scram_dbextract toyPrims
      [decField PBKDF2_PRF_SCRAM_SHA2_512, decField 10000,
       (toyB64Encode (List.replicate 16 7)).getD []] = none ∧
    ¬(c_ci_pbkdf2v2_digest (some "SCRAM-SHA512") PBKDF2_DIGEST_DEF =
        PBKDF2_PRF_SCRAM_SHA2_512 ∨
      c_ci_pbkdf2v2_digest (some "SCRAM-SHA512") PBKDF2_DIGEST_DEF =
        PBKDF2_PRF_SCRAM_SHA2_512_S64) :=
  ⟨c4_scram512_resolved_not_rejected.2.2.1 toyPrims
      (decField PBKDF2_PRF_SCRAM_SHA2_512)
      [decField 10000, (toyB64Encode (List.replicate 16 7)).getD []]
      PBKDF2_PRF_SCRAM_SHA2_512 (by decide) (Or.inl rfl),
   c4_scram512_resolved_not_rejected.2.2.2 (some "SCRAM-SHA512")
      PBKDF2_DIGEST_DEF (by decide)⟩

/-- Claim C5: for every digest kind and every derived key of the digest
length, the SCRAM key deriver computes the ServerKey as the HMAC keyed with
the derived key over the ASCII literal "Server Key", and the StoredKey as
the digest of the HMAC keyed with the same derived key over the ASCII
literal "Client Key" (RFC 5802 §3); either output may be requested
independently of the other. -/
theorem c5_scram_derive_rfc5802 (P : Prims) (md : DigestKind)
    (cdg csk cck chk : List Nat)
    (hlen : cdg.length = digestLen md)
    (hcck : cck.length = digestLen md)
    (hs : P.hmac md cdg ServerKeyStr = some csk)
    (hc : P.hmac md cdg ClientKeyStr = some cck)
    (hd : P.evp_digest md cck = some chk) :
    atheme_pbkdf2v2_scram_derive P md (digestLen md) cdg true true
        = some (csk, chk) ∧
    atheme_pbkdf2v2_scram_derive P md (digestLen md) cdg true false
        = some (csk, []) ∧
    atheme_pbkdf2v2_scram_derive P md (digestLen md) cdg false true
        = some ([], chk) := by
  have htake : cdg.take (digestLen md) = cdg := by
    rw [← hlen]
    exact List.take_length cdg
  have htakec : cck.take (digestLen md) = cck := by
    rw [← hcck]
    exact List.take_length cck
  unfold atheme_pbkdf2v2_scram_derive
  rw [htake]
  simp [hs, hc, htakec, hd]

/-- Witness for claim C5 at a concrete digest kind and derived key. -/
theorem c5_scram_derive_witness :
    atheme_pbkdf2v2_scram_derive toyPrims .SHA1 (digestLen .SHA1)
        (List.replicate 20 0) true true
      = some (List.replicate 20 207, List.replicate 20 184) ∧
    atheme_pbkdf2v2_scram_derive toyPrims .SHA1 (digestLen .SHA1)
        (List.replicate 20 0) true false
      = some (List.replicate 20 207, []) ∧
    atheme_pbkdf2v2_scram_derive toyPrims .SHA1 (digestLen .SHA1)
        (List.replicate 20 0) false true
      = some ([], List.replicate 20 184) :=
  c5_scram_derive_rfc5802 toyPrims .SHA1 (List.replicate 20 0)
    (List.replicate 20 207) (List.replicate 20 183) (List.replicate 20 184)
    (by decide) (by decide) (by decide) (by decide) (by decide)

/- ── Validation lemmas for claim C6. -/

theorem parameters_sane_bounds {sl c : Nat}
    (h : atheme_pbkdf2v2_parameters_sane sl c = true) :
    PBKDF2_SALTLEN_MIN ≤ sl ∧ sl ≤ PBKDF2_SALTLEN_MAX ∧
    PBKDF2_ITERCNT_MIN ≤ c ∧ c ≤ PBKDF2_ITERCNT_MAX := by
  unfold atheme_pbkdf2v2_parameters_sane at h
  split_ifs at h with h1 h2
  push_neg at h1 h2
  exact ⟨h1.1, h1.2, h2.1, h2.2⟩

theorem salt_resolve_sane {P : Prims} {info : PrfInfo} {f : CredField} {c : Nat}
    {salt : List Nat} (h : pbkdf2v2_salt_resolve P info f c = some salt) :
    atheme_pbkdf2v2_parameters_sane salt.length c = true := by
  unfold pbkdf2v2_salt_resolve at h
  split at h
  · split at h
    · exact Option.noConfusion h
    · split at h
      · rename_i hsane
        injection h with he
        subst he
        exact hsane
      · exact Option.noConfusion h
  · split at h
    · rename_i hsane
      injection h with he
      subst he
      exact hsane
    · exact Option.noConfusion h

theorem compute_tail_sane {P : Prims} {pw0 : List Nat} {a c : Nat}
    {salt64f ssk64 shk64 sdg64 : CredField} {m v : Bool} {parsed : Parsed}
    (h : atheme_pbkdf2v2_compute_tail P pw0 a c salt64f ssk64 shk64 sdg64 m v
          = some parsed) :
    atheme_pbkdf2v2_parameters_sane parsed.sl parsed.c = true := by
  simp only [atheme_pbkdf2v2_compute_tail] at h
  cases hdp : atheme_pbkdf2v2_determine_prf a with
  | none =>
    simp only [hdp] at h
    exact Option.noConfusion h
  | some info =>
    simp only [hdp] at h
    cases hnm : (if info.scram = true then atheme_pbkdf2v2_scram_normalize P pw0
                 else some pw0) with
    | none =>
      simp only [hnm] at h
      exact Option.noConfusion h
    | some password =>
      simp only [hnm] at h
      cases hsalt : pbkdf2v2_salt_resolve P info salt64f c with
      | none =>
        simp only [hsalt] at h
        exact Option.noConfusion h
      | some salt =>
        simp only [hsalt] at h
        by_cases hpl : password.length = 0
        · rw [if_pos hpl] at h
          exact Option.noConfusion h
        · rw [if_neg hpl] at h
          cases hk : pbkdf2v2_keys_resolve P info.dl ssk64 shk64 sdg64 m v with
          | none =>
            simp only [hk] at h
            exact Option.noConfusion h
          | some keys =>
            obtain ⟨ssk, shk, sdg⟩ := keys
            simp only [hk] at h
            cases hc2 : P.pbkdf2_hmac password salt c info.md info.dl with
            | none =>
              simp only [hc2] at h
              exact Option.noConfusion h
            | some cdg =>
              simp only [hc2] at h
              injection h with he
              subst he
              simpa using salt_resolve_sane hsalt

theorem dbextract_sane {P : Prims} {r : CredRecord} {parsed : Parsed}
    (h : atheme_pbkdf2v2_scram_dbextract P r = some parsed) :
    atheme_pbkdf2v2_parameters_sane parsed.sl parsed.c = true := by
  simp only [atheme_pbkdf2v2_scram_dbextract] at h
  have tail : ∀ (a c : Nat) (fs ssk64 shk64 sdg64 : CredField),
      (match atheme_pbkdf2v2_determine_prf a with
       | none => none
       | some info =>
         match pbkdf2v2_salt_resolve P info fs c with
         | none => none
         | some salt =>
           match (if a = PBKDF2_PRF_HMAC_SHA1 ∨ a = PBKDF2_PRF_HMAC_SHA1_S64 ∨
                     a = PBKDF2_PRF_SCRAM_SHA1 ∨ a = PBKDF2_PRF_SCRAM_SHA1_S64 then
                    some PBKDF2_PRF_SCRAM_SHA1
                  else if a = PBKDF2_PRF_HMAC_SHA2_256 ∨ a = PBKDF2_PRF_HMAC_SHA2_256_S64 ∨
                          a = PBKDF2_PRF_SCRAM_SHA2_256 ∨ a = PBKDF2_PRF_SCRAM_SHA2_256_S64 then
                    some PBKDF2_PRF_SCRAM_SHA2_256
                  else none) with
           | none => none
           | some a2 =>
             if info.scram then
               match P.base64_decode ssk64 with
               | none => none
               | some ssk =>
                 if ssk.length = info.dl then
                   match P.base64_decode shk64 with
                   | none => none
                   | some shk =>
                     if shk.length = info.dl then
                       some { a := a2, c := c, salt := salt, sl := salt.length,
                              md := info.md, dl := info.dl, scram := info.scram,
                              salt64 := info.salt64, cdg := [], ssk := ssk,
                              shk := shk, sdg := [] }
                     else none
                 else none
             else
               match P.base64_decode sdg64 with
               | none => none
               | some cdg =>
                 if cdg.length = info.dl then
                   match atheme_pbkdf2v2_scram_derive P info.md info.dl cdg true true with
                   | none => none
                   | some (ssk, shk) =>
                     some { a := a2, c := c, salt := salt, sl := salt.length,
                            md := info.md, dl := info.dl, scram := info.scram,
                            salt64 := info.salt64, cdg := cdg, ssk := ssk,
                            shk := shk, sdg := [] }
                 else none) = some parsed →
      atheme_pbkdf2v2_parameters_sane parsed.sl parsed.c = true := by
    intro a c fs ssk64 shk64 sdg64 h2
    cases hdp : atheme_pbkdf2v2_determine_prf a with
    | none =>
      simp only [hdp] at h2
      exact Option.noConfusion h2
    | some info =>
      simp only [hdp] at h2
      cases hsalt : pbkdf2v2_salt_resolve P info fs c with
      | none =>
        simp only [hsalt] at h2
        exact Option.noConfusion h2
      | some salt =>
        simp only [hsalt] at h2
        have hsane := salt_resolve_sane hsalt
        split at h2
        · exact Option.noConfusion h2
        · split at h2
          · cases hd1 : P.base64_decode ssk64 with
            | none =>
              simp only [hd1] at h2
              exact Option.noConfusion h2
            | some ssk =>
              simp only [hd1] at h2
              split at h2
              · cases hd2 : P.base64_decode shk64 with
                | none =>
                  simp only [hd2] at h2
                  exact Option.noConfusion h2
                | some shk =>
                  simp only [hd2] at h2
                  split at h2
                  · injection h2 with he
                    subst he
                    simpa using hsane
                  · exact Option.noConfusion h2
              · exact Option.noConfusion h2
          · cases hd3 : P.base64_decode sdg64 with
            | none =>
              simp only [hd3] at h2
              exact Option.noConfusion h2
            | some cdg =>
              simp only [hd3] at h2
              split at h2
              · cases hdr : atheme_pbkdf2v2_scram_derive P info.md info.dl cdg true true with
                | none =>
                  simp only [hdr] at h2
                  exact Option.noConfusion h2
                | some ks =>
                  obtain ⟨ssk, shk⟩ := ks
                  simp only [hdr] at h2
                  injection h2 with he
                  subst he
                  simpa using hsane
              · exact Option.noConfusion h2
  cases h5 : matchRecord5 r with
  | some t5 =>
    obtain ⟨a, c, fs, k1, k2⟩ := t5
    simp only [h5] at h
    exact tail a c fs k1 k2 [] h
  | none =>
    simp only [h5] at h
    cases h4 : matchRecord4 r with
    | some t4 =>
      obtain ⟨a, c, fs, f4⟩ := t4
      simp only [h4] at h
      exact tail a c fs [] [] f4 h
    | none =>
      simp only [h4] at h
      exact Option.noConfusion h

theorem compute_tail_pbkdf2_ext {P Q : Prims}
    (hb : P.base64_decode = Q.base64_decode)
    (hsp : P.stringprep_saslprep = Q.stringprep_saslprep)
    (hfg : ∀ (pw salt : List Nat) (c : Nat) (md : DigestKind) (dl : Nat),
      PBKDF2_SALTLEN_MIN ≤ salt.length → salt.length ≤ PBKDF2_SALTLEN_MAX →
      PBKDF2_ITERCNT_MIN ≤ c → c ≤ PBKDF2_ITERCNT_MAX →
      P.pbkdf2_hmac pw salt c md dl = Q.pbkdf2_hmac pw salt c md dl)
    (pw0 : List Nat) (a c : Nat) (salt64f ssk64 shk64 sdg64 : CredField)
    (m v : Bool) :
    atheme_pbkdf2v2_compute_tail P pw0 a c salt64f ssk64 shk64 sdg64 m v
      = atheme_pbkdf2v2_compute_tail Q pw0 a c salt64f ssk64 shk64 sdg64 m v := by
  have hnz : atheme_pbkdf2v2_scram_normalize Q = atheme_pbkdf2v2_scram_normalize P := by
    funext x
    unfold atheme_pbkdf2v2_scram_normalize
    rw [hsp]
  have hsr : pbkdf2v2_salt_resolve Q = pbkdf2v2_salt_resolve P := by
    funext i fld cc
    unfold pbkdf2v2_salt_resolve
    rw [hb]
  have hkr : pbkdf2v2_keys_resolve Q = pbkdf2v2_keys_resolve P := by
    funext dl s1 s2 s3 mm vv
    unfold pbkdf2v2_keys_resolve
    rw [hb]
  unfold atheme_pbkdf2v2_compute_tail
  rw [hnz, hsr, hkr]
  cases hdp : atheme_pbkdf2v2_determine_prf a with
  | none => rfl
  | some info =>
    simp only [hdp]
    cases hnm : (if info.scram = true then atheme_pbkdf2v2_scram_normalize P pw0
                 else some pw0) with
    | none => simp only [hnm]
    | some password =>
      simp only [hnm]
      cases hsalt : pbkdf2v2_salt_resolve P info salt64f c with
      | none => simp only [hsalt]
      | some salt =>
        simp only [hsalt]
        by_cases hpl : password.length = 0
        · rw [if_pos hpl, if_pos hpl]
        · rw [if_neg hpl, if_neg hpl]
          cases hk : pbkdf2v2_keys_resolve P info.dl ssk64 shk64 sdg64 m v with
          | none => simp only [hk]
          | some keys =>
            obtain ⟨ssk, shk, sdg⟩ := keys
            simp only [hk]
            obtain ⟨b1, b2, b3, b4⟩ := parameters_sane_bounds (salt_resolve_sane hsalt)
            rw [hfg password salt c info.md info.dl b1 b2 b3 b4]

theorem compute_pbkdf2_ext {P Q : Prims}
    (hb : P.base64_decode = Q.base64_decode)
    (hsp : P.stringprep_saslprep = Q.stringprep_saslprep)
    (hfg : ∀ (pw salt : List Nat) (c : Nat) (md : DigestKind) (dl : Nat),
      PBKDF2_SALTLEN_MIN ≤ salt.length → salt.length ≤ PBKDF2_SALTLEN_MAX →
      PBKDF2_ITERCNT_MIN ≤ c → c ≤ PBKDF2_ITERCNT_MAX →
      P.pbkdf2_hmac pw salt c md dl = Q.pbkdf2_hmac pw salt c md dl)
    (pw : List Nat) (r : CredRecord) (v : Bool) :
    atheme_pbkdf2v2_compute P pw r v = atheme_pbkdf2v2_compute Q pw r v := by
  unfold atheme_pbkdf2v2_compute
  cases v with
  | true =>
    simp only [if_true]
    cases h5 : matchRecord5 r with
    | some t5 =>
      obtain ⟨a, c, fs, k1, k2⟩ := t5
      simp only [h5]
      exact compute_tail_pbkdf2_ext hb hsp hfg pw a c fs k1 k2 [] true true
    | none =>
      simp only [h5]
      cases h4 : matchRecord4 r with
      | some t4 =>
        obtain ⟨a, c, fs, f4⟩ := t4
        simp only [h4]
        exact compute_tail_pbkdf2_ext hb hsp hfg pw a c fs [] [] f4 false true
      | none => simp only [h4]
  | false =>
    simp only [Bool.false_eq_true, if_false]
    cases h3 : matchRecord3 r with
    | some t3 =>
      obtain ⟨a, c, fs⟩ := t3
      simp only [h3]
      exact compute_tail_pbkdf2_ext hb hsp hfg pw a c fs [] [] [] false false
    | none => simp only [h3]

/-- Claim C6: in every execution of the credential computer and of the
dbextract entry point, whenever the cryptographic phase is reached the
decoded salt length lies in [SALT_MIN, SALT_MAX] and the iteration count in
[ITER_MIN, ITER_MAX]: (a) every successful compute leaves validated bounds
in the parsed record; (b) the computer's outcome never depends on the PBKDF2
primitive's behaviour at unvalidated salt lengths or round counts, so PBKDF2
is never run on them; (c) likewise every successful dbextract (which guards
its SCRAM key derivation behind the same check) leaves validated bounds. -/
theorem c6_validation_before_crypto :
    (∀ (P : Prims) (pw : List Nat) (r : CredRecord) (v : Bool) (parsed : Parsed),
      atheme_pbkdf2v2_compute P pw r v = some parsed →
      PBKDF2_SALTLEN_MIN ≤ parsed.sl ∧ parsed.sl ≤ PBKDF2_SALTLEN_MAX ∧
      PBKDF2_ITERCNT_MIN ≤ parsed.c ∧ parsed.c ≤ PBKDF2_ITERCNT_MAX) ∧
    (∀ (P Q : Prims),
      P.base64_decode = Q.base64_decode →
      P.stringprep_saslprep = Q.stringprep_saslprep →
      (∀ (pw salt : List Nat) (c : Nat) (md : DigestKind) (dl : Nat),
        PBKDF2_SALTLEN_MIN ≤ salt.length → salt.length ≤ PBKDF2_SALTLEN_MAX →
        PBKDF2_ITERCNT_MIN ≤ c → c ≤ PBKDF2_ITERCNT_MAX →
        P.pbkdf2_hmac pw salt c md dl = Q.pbkdf2_hmac pw salt c md dl) →
      ∀ (pw : List Nat) (r : CredRecord) (v : Bool),
        atheme_pbkdf2v2_compute P pw r v = atheme_pbkdf2v2_compute Q pw r v) ∧
    (∀ (P : Prims) (r : CredRecord) (parsed : Parsed),
      atheme_pbkdf2v2_scram_dbextract P r = some parsed →
      PBKDF2_SALTLEN_MIN ≤ parsed.sl ∧ parsed.sl ≤ PBKDF2_SALTLEN_MAX ∧
      PBKDF2_ITERCNT_MIN ≤ parsed.c ∧ parsed.c ≤ PBKDF2_ITERCNT_MAX) := by
  refine ⟨?_, ?_, ?_⟩
  · intro P pw r v parsed h
    unfold atheme_pbkdf2v2_compute at h
    cases v with
    | true =>
      rw [if_pos rfl] at h
      cases h5 : matchRecord5 r with
      | some t5 =>
        obtain ⟨a, c, fs, k1, k2⟩ := t5
        rw [h5] at h
        exact parameters_sane_bounds (compute_tail_sane h)
      | none =>
        rw [h5] at h
        cases h4 : matchRecord4 r with
        | some t4 =>
          obtain ⟨a, c, fs, f4⟩ := t4
          rw [h4] at h
          exact parameters_sane_bounds (compute_tail_sane h)
        | none =>
          rw [h4] at h
          exact Option.noConfusion h
    | false =>
      rw [if_neg (by simp)] at h
      cases h3 : matchRecord3 r with
      | some t3 =>
        obtain ⟨a, c, fs⟩ := t3
        rw [h3] at h
        exact parameters_sane_bounds (compute_tail_sane h)
      | none =>
        rw [h3] at h
        exact Option.noConfusion h
  · intro P Q hb hsp hfg pw r v
    exact compute_pbkdf2_ext hb hsp hfg pw r v
  · intro P r parsed h
    exact parameters_sane_bounds (dbextract_sane h)

/-- A concrete salt-only record accepted by the computer in generation mode. -/
def c6Record : CredRecord :=
  [decField PBKDF2_PRF_HMAC_SHA1_S64, decField 64000,
   (toyB64Encode (List.replicate 16 3)).getD []]

/-- The parsed result of running the computer on `c6Record` with `toyPrims`. -/
def c6Parsed : Parsed :=
  { a := PBKDF2_PRF_HMAC_SHA1_S64, c := 64000, salt := List.replicate 16 3,
    sl := 16, md := .SHA1, dl := 20, scram := false, salt64 := true,
    cdg := List.replicate 20 193, ssk := [], shk := [], sdg := [] }

/-- A concrete SCRAM-shape record accepted by the dbextract entry point. -/
def dbxRecord : CredRecord :=
  [decField PBKDF2_PRF_SCRAM_SHA1_S64, decField 64000,
   (toyB64Encode (List.replicate 16 3)).getD [],
   (toyB64Encode (List.replicate 20 1)).getD [],
   (toyB64Encode (List.replicate 20 2)).getD []]

/-- The parsed result of running dbextract on `dbxRecord` with `toyPrims`:
note the canonicalized PRF id. -/
def dbxParsed : Parsed :=
  { a := PBKDF2_PRF_SCRAM_SHA1, c := 64000, salt := List.replicate 16 3,
    sl := 16, md := .SHA1, dl := 20, scram := true, salt64 := true,
    cdg := [], ssk := List.replicate 20 1, shk := List.replicate 20 2, sdg := [] }

/-- Witness for claim C6 at concrete successful runs. -/
theorem c6_validation_witness :
    (PBKDF2_SALTLEN_MIN ≤ c6Parsed.sl ∧ c6Parsed.sl ≤ PBKDF2_SALTLEN_MAX ∧
     PBKDF2_ITERCNT_MIN ≤ c6Parsed.c ∧ c6Parsed.c ≤ PBKDF2_ITERCNT_MAX) ∧
    (atheme_pbkdf2v2_compute toyPrims [112] c6Record false
      = atheme_pbkdf2v2_compute toyPrims [112] c6Record false) ∧
    (PBKDF2_SALTLEN_MIN ≤ dbxParsed.sl ∧ dbxParsed.sl ≤ PBKDF2_SALTLEN_MAX ∧
     PBKDF2_ITERCNT_MIN ≤ dbxParsed.c ∧ dbxParsed.c ≤ PBKDF2_ITERCNT_MAX) :=
  ⟨c6_validation_before_crypto.1 toyPrims [112] c6Record false c6Parsed (by decide),
   c6_validation_before_crypto.2.1 toyPrims toyPrims rfl rfl
     (fun _ _ _ _ _ _ _ _ _ => rfl) [112] c6Record false,
   c6_validation_before_crypto.2.2 toyPrims dbxRecord dbxParsed (by decide)⟩

/- ── Garbled-field predicates for claim C7 (the claim's parenthetical:
   fails to decode, or decodes to the wrong length / out-of-bounds salt). -/

/-- A salt field garbled at the decode level for the given PRF: for base64
salts every successful decode has an out-of-bounds length (decode failure is
covered vacuously); for raw salts the field length is out of bounds. -/
def saltFieldBad (P : Prims) (info : PrfInfo) (c : Nat) (fs : CredField) : Prop :=
  if info.salt64 then
    ∀ s, P.base64_decode fs = some s →
      atheme_pbkdf2v2_parameters_sane s.length c = false
  else
    atheme_pbkdf2v2_parameters_sane fs.length c = false

/-- A base64 key/digest field garbled at the decode level: it fails to
decode, or decodes to a length other than the digest length. -/
def keyFieldBad (P : Prims) (dl : Nat) (k : CredField) : Prop :=
  ∀ v2, P.base64_decode k = some v2 → v2.length ≠ dl

theorem salt_resolve_none_of_bad {P : Prims} {info : PrfInfo} {c : Nat}
    {fs : CredField} (hbad : saltFieldBad P info c fs) :
    pbkdf2v2_salt_resolve P info fs c = none := by
  unfold saltFieldBad at hbad
  unfold pbkdf2v2_salt_resolve
  split at hbad
  · rename_i hs64
    rw [if_pos hs64]
    cases hd : P.base64_decode fs with
    | none => rfl
    | some s => simp [hbad s hd]
  · rename_i hs64
    rw [if_neg hs64, hbad]
    simp

theorem keys_resolve_none_of_bad1 {P : Prims} {dl : Nat} {k1 k2 s3 : CredField}
    {v : Bool} (hbad : keyFieldBad P dl k1) :
    pbkdf2v2_keys_resolve P dl k1 k2 s3 true v = none := by
  unfold pbkdf2v2_keys_resolve
  rw [if_pos rfl]
  cases hd : P.base64_decode k1 with
  | none => rfl
  | some w => simp [hbad w hd]

theorem keys_resolve_none_of_bad2 {P : Prims} {dl : Nat} {k1 k2 s3 : CredField}
    {v : Bool} (hbad : keyFieldBad P dl k2) :
    pbkdf2v2_keys_resolve P dl k1 k2 s3 true v = none := by
  unfold pbkdf2v2_keys_resolve
  rw [if_pos rfl]
  cases hd : P.base64_decode k1 with
  | none => rfl
  | some w =>
    by_cases hw : w.length = dl
    · simp only [hw, if_pos rfl]
      cases hd2 : P.base64_decode k2 with
      | none => simp
      | some w2 => simp [hbad w2 hd2]
    · simp [hw]

theorem keys_resolve_none_of_bad_sdg {P : Prims} {dl : Nat} {k1 k2 s3 : CredField}
    (hbad : keyFieldBad P dl s3) :
    pbkdf2v2_keys_resolve P dl k1 k2 s3 false true = none := by
  unfold pbkdf2v2_keys_resolve
  rw [if_neg (by simp), if_pos rfl]
  cases hd : P.base64_decode s3 with
  | none => rfl
  | some w => simp [hbad w hd]

theorem compute_tail_none_of_salt_bad {P : Prims} {pw0 : List Nat} {a c : Nat}
    {fs k1 k2 s3 : CredField} {m v : Bool} {info : PrfInfo}
    (hinfo : atheme_pbkdf2v2_determine_prf a = some info)
    (hbad : saltFieldBad P info c fs) :
    atheme_pbkdf2v2_compute_tail P pw0 a c fs k1 k2 s3 m v = none := by
  unfold atheme_pbkdf2v2_compute_tail
  rw [hinfo]
  cases hnm : (if info.scram = true then atheme_pbkdf2v2_scram_normalize P pw0
               else some pw0) with
  | none => simp [hnm]
  | some password => simp [hnm, salt_resolve_none_of_bad hbad]

theorem compute_tail_none_of_keys_none {P : Prims} {pw0 : List Nat} {a c : Nat}
    {fs k1 k2 s3 : CredField} {m v : Bool} {info : PrfInfo}
    (hinfo : atheme_pbkdf2v2_determine_prf a = some info)
    (hkeys : pbkdf2v2_keys_resolve P info.dl k1 k2 s3 m v = none) :
    atheme_pbkdf2v2_compute_tail P pw0 a c fs k1 k2 s3 m v = none := by
  unfold atheme_pbkdf2v2_compute_tail
  rw [hinfo]
  cases hnm : (if info.scram = true then atheme_pbkdf2v2_scram_normalize P pw0
               else some pw0) with
  | none => simp [hnm]
  | some password =>
    simp only [hnm]
    cases hsalt : pbkdf2v2_salt_resolve P info fs c with
    | none => simp [hsalt]
    | some salt =>
      simp only [hsalt]
      by_cases hpl : password.length = 0
      · rw [if_pos hpl]
      · rw [if_neg hpl, hkeys]

theorem verify_false_of_compute_none {P : Prims} {pw : List Nat} {r : CredRecord}
    (h : atheme_pbkdf2v2_compute P pw r true = none) :
    atheme_pbkdf2v2_verify P pw r = false := by
  unfold atheme_pbkdf2v2_verify
  rw [h]

/-- Claim C7: for every record of any of the three shapes whose base64 field
is truncated or garbled at the decode level — the salt fails to decode or
decodes out of bounds, a SCRAM key or stored digest field fails to decode or
decodes to a length other than the digest length — Verify returns false, the
same observable result as a wrong password (it is a total Boolean function,
so no distinguishable error can escape); records in the salt-only shape
never parse in verify mode, so Verify is false on them unconditionally. -/
theorem c7_garbled_records_verify_false :
    (∀ (P : Prims) (pw : List Nat) (r : CredRecord) (a c : Nat)
      (fs k1 k2 : CredField) (info : PrfInfo),
      matchRecord5 r = some (a, c, fs, k1, k2) →
      atheme_pbkdf2v2_determine_prf a = some info →
      (saltFieldBad P info c fs ∨ keyFieldBad P info.dl k1 ∨
        keyFieldBad P info.dl k2) →
      atheme_pbkdf2v2_verify P pw r = false) ∧
    (∀ (P : Prims) (pw : List Nat) (r : CredRecord) (a c : Nat)
      (fs f4 : CredField) (info : PrfInfo),
      matchRecord5 r = none →
      matchRecord4 r = some (a, c, fs, f4) →
      atheme_pbkdf2v2_determine_prf a = some info →
      (saltFieldBad P info c fs ∨ keyFieldBad P info.dl f4) →
      atheme_pbkdf2v2_verify P pw r = false) ∧
    (∀ (P : Prims) (pw : List Nat) (fa fc fs : CredField),
      atheme_pbkdf2v2_verify P pw [fa, fc, fs] = false) := by
  refine ⟨?_, ?_, ?_⟩
  · intro P pw r a c fs k1 k2 info h5 hinfo hbad
    apply verify_false_of_compute_none
    unfold atheme_pbkdf2v2_compute
    rw [if_pos rfl, h5]
    rcases hbad with hb | hb | hb
    · exact compute_tail_none_of_salt_bad hinfo hb
    · exact compute_tail_none_of_keys_none hinfo (keys_resolve_none_of_bad1 hb)
    · exact compute_tail_none_of_keys_none hinfo (keys_resolve_none_of_bad2 hb)
  · intro P pw r a c fs f4 info h5 h4 hinfo hbad
    apply verify_false_of_compute_none
    unfold atheme_pbkdf2v2_compute
    rw [if_pos rfl, h5, h4]
    rcases hbad with hb | hb
    · exact compute_tail_none_of_salt_bad hinfo hb
    · exact compute_tail_none_of_keys_none hinfo (keys_resolve_none_of_bad_sdg hb)
  · intro P pw fa fc fs
    rfl

/-- Witness for claim C7: a SCRAM-shape record whose StoredKey field decodes
to 19 bytes instead of the 20-byte digest length is rejected. -/
theorem c7_garbled_witness :
    atheme_pbkdf2v2_verify toyPrims [112]
      [decField PBKDF2_PRF_SCRAM_SHA1_S64, decField 64000,
       (toyB64Encode (List.replicate 16 3)).getD [],
       (toyB64Encode (List.replicate 20 1)).getD [],
       (toyB64Encode (List.replicate 19 5)).getD []] = false :=
  c7_garbled_records_verify_false.1 toyPrims [112]
    [decField PBKDF2_PRF_SCRAM_SHA1_S64, decField 64000,
     (toyB64Encode (List.replicate 16 3)).getD [],
     (toyB64Encode (List.replicate 20 1)).getD [],
     (toyB64Encode (List.replicate 19 5)).getD []]
    PBKDF2_PRF_SCRAM_SHA1_S64 64000
    ((toyB64Encode (List.replicate 16 3)).getD [])
    ((toyB64Encode (List.replicate 20 1)).getD [])
    ((toyB64Encode (List.replicate 19 5)).getD [])
    { md := .SHA1, dl := 20, scram := true, salt64 := true }
    (by decide) (by decide)
    (Or.inr (Or.inr (by
      intro v2 hv2 hlen
      have : v2 = List.replicate 19 5 := by
        have hd : toyB64Decode ((toyB64Encode (List.replicate 19 5)).getD [])
            = some (List.replicate 19 5) := by decide
        rw [show (toyPrims.base64_decode = toyB64Decode) from rfl, hd] at hv2
        exact (Option.some.injEq _ _).mp hv2.symm
      rw [this] at hlen
      simp at hlen)))

theorem dbextract_canon {P : Prims} {r : CredRecord} {parsed : Parsed}
    (h : atheme_pbkdf2v2_scram_dbextract P r = some parsed) :
    ∃ (a0 : Nat) (fa : CredField) (rest : CredRecord),
      r = fa :: rest ∧ parseDec fa = some a0 ∧
      (((a0 = PBKDF2_PRF_HMAC_SHA1 ∨ a0 = PBKDF2_PRF_HMAC_SHA1_S64 ∨
         a0 = PBKDF2_PRF_SCRAM_SHA1 ∨ a0 = PBKDF2_PRF_SCRAM_SHA1_S64) ∧
        parsed.a = PBKDF2_PRF_SCRAM_SHA1) ∨
       ((a0 = PBKDF2_PRF_HMAC_SHA2_256 ∨ a0 = PBKDF2_PRF_HMAC_SHA2_256_S64 ∨
         a0 = PBKDF2_PRF_SCRAM_SHA2_256 ∨ a0 = PBKDF2_PRF_SCRAM_SHA2_256_S64) ∧
        parsed.a = PBKDF2_PRF_SCRAM_SHA2_256)) := by
  simp only [atheme_pbkdf2v2_scram_dbextract] at h
  have tail : ∀ (a c : Nat) (fs ssk64 shk64 sdg64 : CredField),
      (match atheme_pbkdf2v2_determine_prf a with
       | none => none
       | some info =>
         match pbkdf2v2_salt_resolve P info fs c with
         | none => none
         | some salt =>
           match (if a = PBKDF2_PRF_HMAC_SHA1 ∨ a = PBKDF2_PRF_HMAC_SHA1_S64 ∨
                     a = PBKDF2_PRF_SCRAM_SHA1 ∨ a = PBKDF2_PRF_SCRAM_SHA1_S64 then
                    some PBKDF2_PRF_SCRAM_SHA1
                  else if a = PBKDF2_PRF_HMAC_SHA2_256 ∨ a = PBKDF2_PRF_HMAC_SHA2_256_S64 ∨
                          a = PBKDF2_PRF_SCRAM_SHA2_256 ∨ a = PBKDF2_PRF_SCRAM_SHA2_256_S64 then
                    some PBKDF2_PRF_SCRAM_SHA2_256
                  else none) with
           | none => none
           | some a2 =>
             if info.scram then
               match P.base64_decode ssk64 with
               | none => none
               | some ssk =>
                 if ssk.length = info.dl then
                   match P.base64_decode shk64 with
                   | none => none
                   | some shk =>
                     if shk.length = info.dl then
                       some { a := a2, c := c, salt := salt, sl := salt.length,
                              md := info.md, dl := info.dl, scram := info.scram,
                              salt64 := info.salt64, cdg := [], ssk := ssk,
                              shk := shk, sdg := [] }
                     else none
                 else none
             else
               match P.base64_decode sdg64 with
               | none => none
               | some cdg =>
                 if cdg.length = info.dl then
                   match atheme_pbkdf2v2_scram_derive P info.md info.dl cdg true true with
                   | none => none
                   | some (ssk, shk) =>
                     some { a := a2, c := c, salt := salt, sl := salt.length,
                            md := info.md, dl := info.dl, scram := info.scram,
                            salt64 := info.salt64, cdg := cdg, ssk := ssk,
                            shk := shk, sdg := [] }
                 else none) = some parsed →
      (((a = PBKDF2_PRF_HMAC_SHA1 ∨ a = PBKDF2_PRF_HMAC_SHA1_S64 ∨
         a = PBKDF2_PRF_SCRAM_SHA1 ∨ a = PBKDF2_PRF_SCRAM_SHA1_S64) ∧
        parsed.a = PBKDF2_PRF_SCRAM_SHA1) ∨
       ((a = PBKDF2_PRF_HMAC_SHA2_256 ∨ a = PBKDF2_PRF_HMAC_SHA2_256_S64 ∨
         a = PBKDF2_PRF_SCRAM_SHA2_256 ∨ a = PBKDF2_PRF_SCRAM_SHA2_256_S64) ∧
        parsed.a = PBKDF2_PRF_SCRAM_SHA2_256)) := by
    intro a c fs ssk64 shk64 sdg64 h2
    cases hdp : atheme_pbkdf2v2_determine_prf a with
    | none =>
      simp only [hdp] at h2
      exact Option.noConfusion h2
    | some info =>
      simp only [hdp] at h2
      cases hsalt : pbkdf2v2_salt_resolve P info fs c with
      | none =>
        simp only [hsalt] at h2
        exact Option.noConfusion h2
      | some salt =>
        simp only [hsalt] at h2
        have main : ∀ (a2 : Nat),
            (if info.scram = true then
               match P.base64_decode ssk64 with
               | none => none
               | some ssk =>
                 if ssk.length = info.dl then
                   match P.base64_decode shk64 with
                   | none => none
                   | some shk =>
                     if shk.length = info.dl then
                       some { a := a2, c := c, salt := salt, sl := salt.length,
                              md := info.md, dl := info.dl, scram := info.scram,
                              salt64 := info.salt64, cdg := [], ssk := ssk,
                              shk := shk, sdg := [] }
                     else none
                 else none
             else
               match P.base64_decode sdg64 with
               | none => none
               | some cdg =>
                 if cdg.length = info.dl then
                   match atheme_pbkdf2v2_scram_derive P info.md info.dl cdg true true with
                   | none => none
                   | some (ssk, shk) =>
                     some { a := a2, c := c, salt := salt, sl := salt.length,
                            md := info.md, dl := info.dl, scram := info.scram,
                            salt64 := info.salt64, cdg := cdg, ssk := ssk,
                            shk := shk, sdg := [] }
                 else none) = some parsed →
            parsed.a = a2 := by
          intro a2 h3
          split at h3
          · cases hd1 : P.base64_decode ssk64 with
            | none =>
              simp only [hd1] at h3
              exact Option.noConfusion h3
            | some ssk =>
              simp only [hd1] at h3
              split at h3
              · cases hd2 : P.base64_decode shk64 with
                | none =>
                  simp only [hd2] at h3
                  exact Option.noConfusion h3
                | some shk =>
                  simp only [hd2] at h3
                  split at h3
                  · injection h3 with he
                    subst he
                    rfl
                  · exact Option.noConfusion h3
              · exact Option.noConfusion h3
          · cases hd3 : P.base64_decode sdg64 with
            | none =>
              simp only [hd3] at h3
              exact Option.noConfusion h3
            | some cdg =>
              simp only [hd3] at h3
              split at h3
              · cases hdr : atheme_pbkdf2v2_scram_derive P info.md info.dl cdg true true with
                | none =>
                  simp only [hdr] at h3
                  exact Option.noConfusion h3
                | some ks =>
                  obtain ⟨ssk, shk⟩ := ks
                  simp only [hdr] at h3
                  injection h3 with he
                  subst he
                  rfl
              · exact Option.noConfusion h3
        split at h2
        · exact Option.noConfusion h2
        · rename_i a2 hcan
          have hpa := main a2 h2
          split at hcan
          · rename_i hcond1
            injection hcan with ha2
            exact Or.inl ⟨hcond1, by rw [hpa, ← ha2]⟩
          · split at hcan
            · rename_i hcond2
              injection hcan with ha2
              exact Or.inr ⟨hcond2, by rw [hpa, ← ha2]⟩
            · exact Option.noConfusion hcan
  cases r with
  | nil => simp [matchRecord5, matchRecord4] at h
  | cons fa rest =>
    cases h5 : matchRecord5 (fa :: rest) with
    | some t5 =>
      obtain ⟨a, c, fs, k1, k2⟩ := t5
      simp only [h5] at h
      exact ⟨a, fa, rest, rfl, matchRecord5_prf h5, tail a c fs k1 k2 [] h⟩
    | none =>
      simp only [h5] at h
      cases h4 : matchRecord4 (fa :: rest) with
      | some t4 =>
        obtain ⟨a, c, fs, f4⟩ := t4
        simp only [h4] at h
        exact ⟨a, fa, rest, rfl, matchRecord4_prf h4, tail a c fs [] [] f4 h⟩
      | none =>
        simp only [h4] at h
        exact Option.noConfusion h

theorem dbextract_none_of_not_family {P : Prims} {fa : CredField}
    {rest : CredRecord} {a0 : Nat}
    (hpa : parseDec fa = some a0)
    (h1 : ¬(a0 = PBKDF2_PRF_HMAC_SHA1 ∨ a0 = PBKDF2_PRF_HMAC_SHA1_S64 ∨
            a0 = PBKDF2_PRF_SCRAM_SHA1 ∨ a0 = PBKDF2_PRF_SCRAM_SHA1_S64))
    (h2 : ¬(a0 = PBKDF2_PRF_HMAC_SHA2_256 ∨ a0 = PBKDF2_PRF_HMAC_SHA2_256_S64 ∨
            a0 = PBKDF2_PRF_SCRAM_SHA2_256 ∨ a0 = PBKDF2_PRF_SCRAM_SHA2_256_S64)) :
    atheme_pbkdf2v2_scram_dbextract P (fa :: rest) = none := by
  cases hext : atheme_pbkdf2v2_scram_dbextract P (fa :: rest) with
  | none => rfl
  | some parsed =>
    obtain ⟨a1, fa1, rest1, heq, hpa1, hfam⟩ := dbextract_canon hext
    injection heq with hfa hrest
    subst hfa
    rw [hpa] at hpa1
    injection hpa1 with ha
    subst ha
    rcases hfam with ⟨hin, _⟩ | ⟨hin, _⟩
    · exact absurd hin h1
    · exact absurd hin h2

/-- Claim C9: every successful dbextract canonicalizes the PRF id — the
whole SHA-1 family is rewritten to the single SCRAM-SHA1 id and the SHA2-256
family to SCRAM-SHA2-256 — while every SHA-512 identifier, HMAC or SCRAM,
makes dbextract fail, even though the PRF resolver used by Encode and Verify
accepts those same SHA-512 identifiers. -/
theorem c9_dbextract_canonicalizes :
    (∀ (P : Prims) (r : CredRecord) (parsed : Parsed),
      atheme_pbkdf2v2_scram_dbextract P r = some parsed →
      (parsed.a = PBKDF2_PRF_SCRAM_SHA1 ∨ parsed.a = PBKDF2_PRF_SCRAM_SHA2_256)) ∧
    (∀ (P : Prims) (fa : CredField) (rest : CredRecord) (a0 : Nat) (parsed : Parsed),
      parseDec fa = some a0 →
      atheme_pbkdf2v2_scram_dbextract P (fa :: rest) = some parsed →
      ((a0 = PBKDF2_PRF_HMAC_SHA1 ∨ a0 = PBKDF2_PRF_HMAC_SHA1_S64 ∨
        a0 = PBKDF2_PRF_SCRAM_SHA1 ∨ a0 = PBKDF2_PRF_SCRAM_SHA1_S64 →
        parsed.a = PBKDF2_PRF_SCRAM_SHA1) ∧
       (a0 = PBKDF2_PRF_HMAC_SHA2_256 ∨ a0 = PBKDF2_PRF_HMAC_SHA2_256_S64 ∨
        a0 = PBKDF2_PRF_SCRAM_SHA2_256 ∨ a0 = PBKDF2_PRF_SCRAM_SHA2_256_S64 →
        parsed.a = PBKDF2_PRF_SCRAM_SHA2_256))) ∧
    (∀ (P : Prims) (fa : CredField) (rest : CredRecord) (a0 : Nat),
      parseDec fa = some a0 →
      (a0 = PBKDF2_PRF_HMAC_SHA2_512 ∨ a0 = PBKDF2_PRF_HMAC_SHA2_512_S64 ∨
       a0 = PBKDF2_PRF_SCRAM_SHA2_512 ∨ a0 = PBKDF2_PRF_SCRAM_SHA2_512_S64) →
      atheme_pbkdf2v2_scram_dbextract P (fa :: rest) = none) ∧
    (∀ a0 : Nat,
      (a0 = PBKDF2_PRF_HMAC_SHA2_512 ∨ a0 = PBKDF2_PRF_HMAC_SHA2_512_S64 ∨
       a0 = PBKDF2_PRF_SCRAM_SHA2_512 ∨ a0 = PBKDF2_PRF_SCRAM_SHA2_512_S64) →
      (atheme_pbkdf2v2_determine_prf a0).isSome = true) := by
  refine ⟨?_, ?_, ?_, ?_⟩
  · intro P r parsed h
    obtain ⟨a0, fa, rest, _, _, hfam⟩ := dbextract_canon h
    rcases hfam with ⟨_, hpa⟩ | ⟨_, hpa⟩
    · exact Or.inl hpa
    · exact Or.inr hpa
  · intro P fa rest a0 parsed hpa h
    obtain ⟨a1, fa1, rest1, heq, hpa1, hfam⟩ := dbextract_canon h
    injection heq with hfa hrest
    subst hfa
    rw [hpa] at hpa1
    injection hpa1 with ha
    subst ha
    constructor
    · intro hin
      rcases hfam with ⟨_, hout⟩ | ⟨hin2, _⟩
      · exact hout
      · rcases hin with h | h | h | h <;> subst h <;>
          rcases hin2 with h | h | h | h <;> exact absurd h (by decide)
    · intro hin
      rcases hfam with ⟨hin2, _⟩ | ⟨_, hout⟩
      · rcases hin with h | h | h | h <;> subst h <;>
          rcases hin2 with h | h | h | h <;> exact absurd h (by decide)
      · exact hout
  · intro P fa rest a0 hpa hin
    refine dbextract_none_of_not_family hpa ?_ ?_ <;>
      rcases hin with h | h | h | h <;> subst h <;> intro hc <;>
        rcases hc with h | h | h | h <;> exact absurd h (by decide)
  · intro a0 hin
    rcases hin with h | h | h | h <;> subst h <;> decide

/-- Witness for claim C9 at concrete records. -/
theorem c9_dbextract_witness :
    (dbxParsed.a = PBKDF2_PRF_SCRAM_SHA1 ∨
      dbxParsed.a = PBKDF2_PRF_SCRAM_SHA2_256) ∧
    atheme_pbkdf2v2_scram_dbextract toyPrims
      [decField PBKDF2_PRF_HMAC_SHA2_512_S64, decField 64000,
       (toyB64Encode (List.replicate 16 3)).getD []] = none ∧
    (atheme_pbkdf2v2_determine_prf PBKDF2_PRF_SCRAM_SHA2_512).isSome = true :=
  ⟨c9_dbextract_canonicalizes.1 toyPrims dbxRecord dbxParsed (by decide),
   c9_dbextract_canonicalizes.2.2.1 toyPrims (decField PBKDF2_PRF_HMAC_SHA2_512_S64)
     [decField 64000, (toyB64Encode (List.replicate 16 3)).getD []]
     PBKDF2_PRF_HMAC_SHA2_512_S64 (by decide) (Or.inr (Or.inl rfl)),
   c9_dbextract_canonicalizes.2.2.2 PBKDF2_PRF_SCRAM_SHA2_512
     (Or.inr (Or.inr (Or.inl rfl)))⟩

theorem compute_tail_none_of_norm_empty {P : Prims} {pw0 : List Nat} {a c : Nat}
    {fs k1 k2 s3 : CredField} {m v : Bool} {info : PrfInfo}
    (hinfo : atheme_pbkdf2v2_determine_prf a = some info)
    (hscram : info.scram = true)
    (hnorm : atheme_pbkdf2v2_scram_normalize P pw0 = some []) :
    atheme_pbkdf2v2_compute_tail P pw0 a c fs k1 k2 s3 m v = none := by
  unfold atheme_pbkdf2v2_compute_tail
  simp only [hinfo]
  rw [if_pos hscram, hnorm]
  cases hsalt : pbkdf2v2_salt_resolve P info fs c with
  | none => simp [hsalt]
  | some salt => simp [hsalt]

/-- Claim C10: in the credential computer, SCRAM password normalization is
applied before the empty-password check: for every non-empty input password
whose SASLprep normalization yields the empty string and every record whose
leading PRF field resolves to a SCRAM id, the computation fails — under any
PBKDF2 primitive whatsoever, so PBKDF2 is never run — because the emptiness
test is made on the normalized text, not the original input. -/
theorem c10_normalize_before_empty_check :
    ∀ (P : Prims)
      (f : List Nat → List Nat → Nat → DigestKind → Nat → Option (List Nat))
      (pw : List Nat) (fa : CredField) (rest : CredRecord) (v : Bool)
      (a : Nat) (info : PrfInfo),
      parseDec fa = some a →
      atheme_pbkdf2v2_determine_prf a = some info →
      info.scram = true →
      pw ≠ [] →
      atheme_pbkdf2v2_scram_normalize P pw = some [] →
      atheme_pbkdf2v2_compute { P with pbkdf2_hmac := f } pw (fa :: rest) v
        = none := by
  intro P f pw fa rest v a info hpa hinfo hscram hpw hnorm
  have hnorm2 : atheme_pbkdf2v2_scram_normalize { P with pbkdf2_hmac := f } pw
      = some [] := hnorm
  unfold atheme_pbkdf2v2_compute
  cases v with
  | true =>
    rw [if_pos rfl]
    cases h5 : matchRecord5 (fa :: rest) with
    | some t5 =>
      obtain ⟨a5, c5, fs5, k15, k25⟩ := t5
      have hpa5 := matchRecord5_prf h5
      rw [hpa] at hpa5
      injection hpa5 with ha
      subst ha
      simp only [h5]
      exact compute_tail_none_of_norm_empty hinfo hscram hnorm2
    | none =>
      simp only [h5]
      cases h4 : matchRecord4 (fa :: rest) with
      | some t4 =>
        obtain ⟨a4, c4, fs4, f44⟩ := t4
        have hpa4 := matchRecord4_prf h4
        rw [hpa] at hpa4
        injection hpa4 with ha
        subst ha
        simp only [h4]
        exact compute_tail_none_of_norm_empty hinfo hscram hnorm2
      | none => simp only [h4]
  | false =>
    rw [if_neg (by simp)]
    cases h3 : matchRecord3 (fa :: rest) with
    | some t3 =>
      obtain ⟨a3, c3, fs3⟩ := t3
      have hpa3 := matchRecord3_prf h3
      rw [hpa] at hpa3
      injection hpa3 with ha
      subst ha
      simp only [h3]
      exact compute_tail_none_of_norm_empty hinfo hscram hnorm2
    | none => simp only [h3]

/-- Primitives whose SASLprep profile maps every input to the empty string. -/
def c10Prims : Prims := { toyPrims with stringprep_saslprep := fun _ => some [] }

/-- Witness for claim C10 at a concrete record and password. -/
theorem c10_normalize_witness :
    atheme_pbkdf2v2_compute
      { c10Prims with pbkdf2_hmac := toyPrims.pbkdf2_hmac } [65]
      [decField PBKDF2_PRF_SCRAM_SHA1_S64, decField 64000,
       (toyB64Encode (List.replicate 16 3)).getD []] false = none :=
  c10_normalize_before_empty_check c10Prims toyPrims.pbkdf2_hmac [65]
    (decField PBKDF2_PRF_SCRAM_SHA1_S64)
    [decField 64000, (toyB64Encode (List.replicate 16 3)).getD []]
    false PBKDF2_PRF_SCRAM_SHA1_S64
    { md := .SHA1, dl := 20, scram := true, salt64 := true }
    (by decide) (by decide) rfl (by decide) (by decide)
